import Mathlib

/-!
Verification of the real-time state-synchronization core of the
olympics-pwa-laurentian backend, as a shallow embedding in Lean 4.

Embedded source files:
- `apps/api/app/core/websocket_manager.py` (`ConnectionManager`)
- `apps/api/app/api/admin.py` (`award_student`)
- `apps/api/app/api/admin_supabase.py` (`award_assignment_xp`)
- `apps/api/app/api/students.py` (`roll_dice`)
- `apps/api/app/api/students_supabase.py` (`roll_dice`)

Conventions of the embedding:
- Python ints are `Int`; Python `//` (floor division) is `Int.fdiv`.
- Python dicts keyed by hashable values are association lists
  (`List (key × value)`) with unique-key update (`alistInsert`) and
  key deletion (`alistErase`), preserving insertion order as CPython does.
- Python sets of websockets are `List Nat` (a websocket is identified by
  a `Nat`); `set.add`/`set.discard` become ordered insert-if-absent/filter.
- The random source is injected explicitly (a drawn value or a record of
  drawn values), exactly as the spec says the engine is "deterministic
  given its random source".
- HTTP exceptions become `Except HttpError`; the human-readable `detail`
  strings are abstracted to stable tags (the status codes are preserved).
- Whether `websocket.send_text` succeeds for a given socket is injected as
  a function `sendOk : Nat → Bool`; the Python `try/except` around each
  send is mirrored by the embedding being a total function (no failure
  escapes to the caller).
-/

/-- A key lookup in a Python dict modelled as an association list:
returns the value at the first matching key. -/
def lookup {α β : Type} [DecidableEq α] (k : α) : List (α × β) → Option β
  | [] => none
  | (k', v) :: t => if k' = k then some v else lookup k t

/-- `d[k] = v` on a Python dict: replaces the value at an existing key in
place, otherwise appends the binding (CPython insertion order). -/
def alistInsert {α β : Type} [DecidableEq α] (k : α) (v : β) : List (α × β) → List (α × β)
  | [] => [(k, v)]
  | (k', v') :: t => if k' = k then (k, v) :: t else (k', v') :: alistInsert k v t

/-- `del d[k]` on a Python dict: removes the binding for `k`. -/
def alistErase {α β : Type} [DecidableEq α] (k : α) : List (α × β) → List (α × β)
  | [] => []
  | (k', v) :: t => if k' = k then alistErase k t else (k', v) :: alistErase k t

/-- `s.add(x)` on a Python set modelled as a duplicate-free list. -/
def setAdd (x : Nat) (l : List Nat) : List Nat :=
  if x ∈ l then l else l ++ [x]

/-- `s.discard(x)` on a Python set. -/
def setDiscard (x : Nat) (l : List Nat) : List Nat :=
  l.filter (fun y => y ≠ x)

/-! ## Connection Registry (`websocket_manager.py`, class `ConnectionManager`) -/

/-- Metadata stored per connection in `ConnectionManager.connection_data`
(`user_id`, `connection_id`, `connected_at`, `last_activity`; timestamps are
abstract `Nat` instants). -/
structure ConnMeta where
  user_id : String
  connection_id : String
  connected_at : Nat
  last_activity : Nat
deriving DecidableEq, Repr

/-- The mutable state of `ConnectionManager`: user index `connections`,
per-connection metadata `connection_data`, room index `rooms`, and the two
counters. Websockets are identified by `Nat`. -/
structure Manager where
  connections : List (String × List Nat)
  connection_data : List (Nat × ConnMeta)
  rooms : List (String × List Nat)
  connection_count : Int
  message_count : Int
deriving DecidableEq, Repr

/-- `ConnectionManager.__init__`. -/
def Manager.empty : Manager :=
  { connections := [], connection_data := [], rooms := [],
    connection_count := 0, message_count := 0 }

/-- `ConnectionManager.join_room` (lines 89-95): create the room set if
absent, then add the websocket. -/
def Manager.join_room (m : Manager) (w : Nat) (room : String) : Manager :=
  let members := (lookup room m.rooms).getD []
  { m with rooms := alistInsert room (setAdd w members) m.rooms }

/-- `ConnectionManager.leave_room` (lines 97-104): discard the websocket
and delete the room when its membership becomes empty. -/
def Manager.leave_room (m : Manager) (w : Nat) (room : String) : Manager :=
  match lookup room m.rooms with
  | none => m
  | some members =>
    let members' := setDiscard w members
    if members' = [] then { m with rooms := alistErase room m.rooms }
    else { m with rooms := alistInsert room members' m.rooms }

/-- `ConnectionManager.disconnect` (lines 63-87): a no-op when the websocket
has no metadata entry; otherwise removes it from the user index (deleting
the user's entry when its set becomes empty), discards it from every room
(without deleting empty rooms), deletes its metadata and decrements
`connection_count`. -/
def Manager.disconnect (m : Manager) (w : Nat) : Manager :=
  match lookup w m.connection_data with
  | none => m
  | some data =>
    let uid := data.user_id
    let connections :=
      match lookup uid m.connections with
      | none => m.connections
      | some s =>
        let s' := setDiscard w s
        if s' = [] then alistErase uid m.connections
        else alistInsert uid s' m.connections
    { m with
      connections := connections,
      connection_data := alistErase w m.connection_data,
      rooms := m.rooms.map (fun p => (p.1, setDiscard w p.2)),
      connection_count := m.connection_count - 1 }

/-- The members of a room (empty when the room does not exist). -/
def Manager.roomMembers (m : Manager) (room : String) : List Nat :=
  (lookup room m.rooms).getD []

/-- The delivery loop shared verbatim by `send_to_user` (lines 126-137) and
`broadcast_to_room` (lines 144-155): one send attempt per target socket
(a snapshot taken by `.copy()`), successes bump `message_count`, failing
sockets are collected in `disconnected_connections` and disconnected after
the loop. Returns the new state together with the list of sockets whose
send succeeded. `sendOk` injects which sends succeed; the Python per-socket
`try/except` is mirrored by totality: no delivery failure reaches the
caller. -/
def dispatchAll (m : Manager) (targets : List Nat) (sendOk : Nat → Bool) :
    Manager × List Nat :=
  let delivered := targets.filter sendOk
  let failed := targets.filter (fun w => ¬ sendOk w)
  let m' := { m with message_count := m.message_count + delivered.length }
  (failed.foldl Manager.disconnect m', delivered)

/-- `ConnectionManager.broadcast_to_room` (lines 139-155): a missing room is
a silent no-op; otherwise the delivery loop runs over the room's members. -/
def Manager.broadcast_to_room (m : Manager) (room : String) (sendOk : Nat → Bool) :
    Manager × List Nat :=
  match lookup room m.rooms with
  | none => (m, [])
  | some members => dispatchAll m members sendOk

/-- `ConnectionManager.send_to_user` (lines 120-137): a user with no
registered connections is a silent no-op; otherwise the delivery loop runs
over all of that user's connections. -/
def Manager.send_to_user (m : Manager) (uid : String) (sendOk : Nat → Bool) :
    Manager × List Nat :=
  match lookup uid m.connections with
  | none => (m, [])
  | some conns => dispatchAll m conns sendOk

/-- The connections registered for a user (empty when the user has none). -/
def Manager.userConns (m : Manager) (uid : String) : List Nat :=
  (lookup uid m.connections).getD []

/-- Registry well-formedness: every socket appearing in a room has a
metadata entry. `connect` registers metadata before joining any room and
`disconnect` removes room membership together with metadata, so every
reachable registry state satisfies this. -/
def Manager.WF (m : Manager) : Prop :=
  ∀ p ∈ m.rooms, ∀ w ∈ p.2, (lookup w m.connection_data).isSome

instance (m : Manager) : Decidable m.WF := by
  unfold Manager.WF
  infer_instance

/-- A concrete registry used to witness the failure-isolation theorem:
one user with three live sockets, two of them in `all_users`. -/
def m70 : Manager :=
  { connections := [("alice", [1, 2, 3])],
    connection_data :=
      [(1, ⟨"alice", "c1", 0, 0⟩), (2, ⟨"alice", "c2", 0, 0⟩),
       (3, ⟨"alice", "c3", 0, 0⟩)],
    rooms := [("all_users", [1, 2])],
    connection_count := 3, message_count := 0 }

/-- A delivery outcome where socket 2's send fails and all others succeed. -/
def f70 : Nat → Bool := fun w => ¬ w = 2

/-- A concrete registry used to witness the disconnect-idempotence
theorem. -/
def m80 : Manager :=
  { connections := [("alice", [1, 2])],
    connection_data := [(1, ⟨"alice", "c1", 0, 0⟩), (2, ⟨"alice", "c2", 0, 0⟩)],
    rooms := [("all_users", [1, 2]), ("unit-3", [1])],
    connection_count := 2, message_count := 0 }

/-! ## Game-state data model (`models/olympics.py`, `schemas/olympics.py`) -/

/-- The five skill columns of `PlayerSkills` / values of `SkillType`. -/
inductive Skill
  | strength | endurance | tactics | climbing | speed
deriving DecidableEq, Repr

/-- `PlayerStats` columns (model defaults: xp 0, level 1, rank 0,
gameboard xp 0, position 1, moves 0, gold 3, empty `unit_xp` JSON). -/
structure PlayerStats where
  current_xp : Int
  total_xp : Int
  current_level : Int
  current_rank : Int
  gameboard_xp : Int
  gameboard_position : Int
  gameboard_moves : Int
  gold : Int
  unit_xp : List (String × Int)
deriving DecidableEq, Repr

/-- A fresh `PlayerStats()` row, with the column defaults. -/
def defaultStats : PlayerStats :=
  { current_xp := 0, total_xp := 0, current_level := 1, current_rank := 0,
    gameboard_xp := 0, gameboard_position := 1, gameboard_moves := 0,
    gold := 3, unit_xp := [] }

/-- `PlayerSkills` columns (each defaults to 1). -/
structure PlayerSkills where
  strength : Int
  endurance : Int
  tactics : Int
  climbing : Int
  speed : Int
deriving DecidableEq, Repr

/-- A fresh `PlayerSkills()` row. -/
def defaultSkills : PlayerSkills := ⟨1, 1, 1, 1, 1⟩

/-- `getattr(player_skills, skill_name)`. -/
def PlayerSkills.get (s : PlayerSkills) : Skill → Int
  | .strength => s.strength
  | .endurance => s.endurance
  | .tactics => s.tactics
  | .climbing => s.climbing
  | .speed => s.speed

/-- `setattr(player_skills, skill_name, v)`. -/
def PlayerSkills.set (s : PlayerSkills) (sk : Skill) (v : Int) : PlayerSkills :=
  match sk with
  | .strength => { s with strength := v }
  | .endurance => { s with endurance := v }
  | .tactics => { s with tactics := v }
  | .climbing => { s with climbing := v }
  | .speed => { s with speed := v }

/-- The `PlayerInventory` item columns. -/
inductive Item
  | water | gatorade | first_aid_kit
deriving DecidableEq, Repr

/-- `PlayerInventory` columns (each defaults to 0). -/
structure Inventory where
  water : Int
  gatorade : Int
  first_aid_kit : Int
deriving DecidableEq, Repr

/-- `setattr(inventory, item, getattr(inventory, item) + quantity)`. -/
def Inventory.add (inv : Inventory) (it : Item) (q : Int) : Inventory :=
  match it with
  | .water => { inv with water := inv.water + q }
  | .gatorade => { inv with gatorade := inv.gatorade + q }
  | .first_aid_kit => { inv with first_aid_kit := inv.first_aid_kit + q }

/-- The `completion_reward_items` loop of `students.py` lines 232-235. -/
def applyItems (inv : Inventory) : List (Item × Int) → Inventory
  | [] => inv
  | (it, q) :: rest => applyItems (inv.add it q) rest

/-- `Assignment` columns used by the award paths. -/
structure Assignment where
  id : String
  unit_id : String
  max_xp : Int
deriving DecidableEq, Repr

/-- `GameboardStation` columns used by the roll path. -/
structure GameboardStation where
  id : Int
  required_skill : Skill
  completion_reward_xp : Int
  completion_reward_items : List (Item × Int)
deriving DecidableEq, Repr

/-- The `XPEntry.type` values. -/
inductive XPType
  | assignment | bonus | gameboard | special
deriving DecidableEq, Repr

/-- An `XPEntry` row (SQLAlchemy side). -/
structure XPEntryRec where
  user_id : String
  amount : Int
  type : XPType
  assignment_id : Option String
  unit_id : Option String
deriving DecidableEq, Repr

/-- A `DiceRoll` row. -/
structure DiceRollRec where
  user_id : String
  station_id : Int
  skill_level : Int
  success_chance : Int
  roll_result : Int
  was_successful : Bool
deriving DecidableEq, Repr

/-- A raised `HTTPException`: status code plus a stable tag abstracting the
human-readable detail string. -/
structure HttpError where
  code : Int
  tag : String
deriving DecidableEq, Repr

/-- The SQLAlchemy database slice touched by `admin.py` and `students.py`:
users (by id), assignments, stations, the per-user rows, the append-only
logs, and a count of `AdminActivity` rows. -/
structure SqlDb where
  users : List String
  assignments : List Assignment
  stations : List GameboardStation
  player_stats : List (String × PlayerStats)
  player_skills : List (String × PlayerSkills)
  player_inventory : List (String × Inventory)
  xp_entries : List XPEntryRec
  dice_rolls : List DiceRollRec
  admin_activities : Int
deriving DecidableEq, Repr

/-- Keeps the database produced by a successful call; a raised
`HTTPException` aborts the request before `db.commit()`, leaving the
caller's database untouched. -/
def resultDb {ε α β : Type} (d : α) : Except ε (α × β) → α
  | .ok (a, _) => a
  | .error _ => d

/-- The response of a successful call, if any. -/
def resultResp {ε α β : Type} : Except ε (α × β) → Option β
  | .ok (_, b) => some b
  | .error _ => none

/-! ## Admin award endpoint (`admin.py`, `award_student`, lines 27-164) -/

/-- `AwardType` values of `schemas/olympics.py`. -/
inductive AwardType
  | xp | bonus_xp | gameboard_moves | gold | skill_points
deriving DecidableEq, Repr

/-- `AdminAwardRequest` (the schema validator enforces `amount > 0`, and for
`skill_points` `amount ≤ 5`; these arrive as hypotheses where needed). -/
structure AdminAwardRequest where
  type : AwardType
  target_user_id : String
  amount : Int
  assignment_id : Option String
  skill_type : Option Skill
deriving DecidableEq, Repr

/-- The real-time notifications spawned by `award_student` lines 138-159. -/
inductive RtEvent
  | award_notification (user_id : String)
  | leaderboard_update
deriving DecidableEq, Repr

/-- `award.type in [AwardType.xp, AwardType.bonus_xp]` (line 152), the
condition under which `award_student` pushes a leaderboard broadcast. -/
def awardAffectsXp : AwardType → Bool
  | .xp => true
  | .bonus_xp => true
  | _ => false

/-- The state mutation of `award_student` (lines 45-136): fetch-or-create
the target's `PlayerStats` row, branch on the award type, log the admin
activity. The `xp` branch requires an existing assignment; `skill_points`
saturates at 5. Note: no branch revalidates the amount against
`assignment.max_xp`, and no branch recomputes `current_level`. -/
def awardApply (award : AdminAwardRequest) (db : SqlDb) : Except HttpError SqlDb :=
  let stats := (lookup award.target_user_id db.player_stats).getD defaultStats
  match award.type with
  | .xp =>
    match award.assignment_id.bind
        (fun aid => db.assignments.find? (fun a => a.id = aid)) with
    | none => .error ⟨404, "assignment_not_found"⟩
    | some assignment =>
      let stats' := { stats with
        current_xp := stats.current_xp + award.amount,
        total_xp := stats.total_xp + award.amount,
        unit_xp := alistInsert assignment.unit_id
          (((lookup assignment.unit_id stats.unit_xp).getD 0) + award.amount)
          stats.unit_xp }
      let entry : XPEntryRec :=
        { user_id := award.target_user_id, amount := award.amount,
          type := .assignment, assignment_id := some assignment.id,
          unit_id := some assignment.unit_id }
      .ok { db with
        player_stats := alistInsert award.target_user_id stats' db.player_stats,
        xp_entries := db.xp_entries ++ [entry],
        admin_activities := db.admin_activities + 1 }
  | .bonus_xp =>
    let stats' := { stats with
      current_xp := stats.current_xp + award.amount,
      total_xp := stats.total_xp + award.amount }
    let entry : XPEntryRec :=
      { user_id := award.target_user_id, amount := award.amount,
        type := .bonus, assignment_id := none, unit_id := none }
    .ok { db with
      player_stats := alistInsert award.target_user_id stats' db.player_stats,
      xp_entries := db.xp_entries ++ [entry],
      admin_activities := db.admin_activities + 1 }
  | .gameboard_moves =>
    let stats' := { stats with gameboard_moves := stats.gameboard_moves + award.amount }
    .ok { db with
      player_stats := alistInsert award.target_user_id stats' db.player_stats,
      admin_activities := db.admin_activities + 1 }
  | .gold =>
    let stats' := { stats with gold := stats.gold + award.amount }
    .ok { db with
      player_stats := alistInsert award.target_user_id stats' db.player_stats,
      admin_activities := db.admin_activities + 1 }
  | .skill_points =>
    match award.skill_type with
    | none => .error ⟨500, "internal_error"⟩
    | some sk =>
      let skills := (lookup award.target_user_id db.player_skills).getD defaultSkills
      let skills' := skills.set sk (min 5 (skills.get sk + award.amount))
      .ok { db with
        player_stats := alistInsert award.target_user_id stats db.player_stats,
        player_skills := alistInsert award.target_user_id skills' db.player_skills,
        admin_activities := db.admin_activities + 1 }

/-- `award_student` (lines 27-164): 404 when the target user does not
exist, otherwise apply the award, commit, and spawn the notifications:
an `award_notification` to the awarded user always, plus a
`leaderboard_update` broadcast exactly when the award type is `xp` or
`bonus_xp` (lines 144-154). -/
def awardStudent (award : AdminAwardRequest) (db : SqlDb) :
    Except HttpError (SqlDb × List RtEvent) :=
  if award.target_user_id ∈ db.users then
    match awardApply award db with
    | .error e => .error e
    | .ok db' =>
      .ok (db', .award_notification award.target_user_id ::
        (if awardAffectsXp award.type then [RtEvent.leaderboard_update] else []))
  else .error ⟨404, "student_not_found"⟩

/-- The events spawned by a successful call (none when it raised). -/
def resultEvents {ε α : Type} : Except ε (α × List RtEvent) → List RtEvent
  | .ok (_, evs) => evs
  | .error _ => []

/-! ## Supabase award endpoint (`admin_supabase.py`, `award_assignment_xp`,
lines 120-242) -/

/-- `AwardXPRequest` of `admin_supabase.py` (no positivity constraint). -/
structure AwardXPRequest where
  target_user_id : String
  assignment_id : String
  xp_awarded : Int
deriving DecidableEq, Repr

/-- An `xp_entries` row on the Supabase side. -/
structure SupaXPEntry where
  user_id : String
  assignment_id : Option String
  unit_id : Option String
  xp_amount : Int
deriving DecidableEq, Repr

/-- The Supabase tables touched by `award_assignment_xp` and the Supabase
`roll_dice` (`player_skills` is present but never read by either). -/
structure SupaDb where
  users : List String
  assignments : List Assignment
  player_stats : List (String × PlayerStats)
  player_skills : List (String × PlayerSkills)
  xp_entries : List SupaXPEntry
deriving DecidableEq, Repr

/-- `max(1, new_total_xp // 200 + 1)` ("Every 200 XP = 1 level",
`admin_supabase.py` line 186, `students_supabase.py` line 426); Python `//`
is floor division, hence `Int.fdiv`. -/
def supaLevel (total_xp : Int) : Int := max 1 (Int.fdiv total_xp 200 + 1)

/-- `award_assignment_xp` (lines 120-242): 404 for a missing student or
assignment; 400 when `xp_awarded` exceeds `assignment.max_xp`, checked
before any table write; otherwise insert the XP entry and update (or
create) the player's stats row, recomputing `current_level` from the new
total. The successful response carries the awarded amount. -/
def awardAssignmentXp (req : AwardXPRequest) (db : SupaDb) :
    Except HttpError (SupaDb × Int) :=
  if req.target_user_id ∈ db.users then
    match db.assignments.find? (fun a => a.id = req.assignment_id) with
    | none => .error ⟨404, "assignment_not_found"⟩
    | some assignment =>
      if assignment.max_xp < req.xp_awarded then
        .error ⟨400, "xp_cap_exceeded"⟩
      else
        let entry : SupaXPEntry :=
          { user_id := req.target_user_id, assignment_id := some assignment.id,
            unit_id := some assignment.unit_id, xp_amount := req.xp_awarded }
        let db1 := { db with xp_entries := db.xp_entries ++ [entry] }
        match lookup req.target_user_id db1.player_stats with
        | some current_stats =>
          let new_total_xp := current_stats.total_xp + req.xp_awarded
          let new_current_xp := current_stats.current_xp + req.xp_awarded
          let new_level := supaLevel new_total_xp
          let unit_xp := alistInsert assignment.unit_id
            (((lookup assignment.unit_id current_stats.unit_xp).getD 0) + req.xp_awarded)
            current_stats.unit_xp
          let stats' := { current_stats with
            total_xp := new_total_xp, current_xp := new_current_xp,
            current_level := new_level, unit_xp := unit_xp }
          .ok ({ db1 with
            player_stats := alistInsert req.target_user_id stats' db1.player_stats },
            req.xp_awarded)
        | none =>
          let stats' : PlayerStats :=
            { current_xp := req.xp_awarded, total_xp := req.xp_awarded,
              current_level := supaLevel req.xp_awarded, current_rank := 0,
              gameboard_xp := 0, gameboard_position := 1, gameboard_moves := 0,
              gold := 0, unit_xp := [(assignment.unit_id, req.xp_awarded)] }
          .ok ({ db1 with
            player_stats := alistInsert req.target_user_id stats' db1.player_stats },
            req.xp_awarded)
  else .error ⟨404, "student_not_found"⟩

/-- The database after `award_assignment_xp`, unchanged when it raised. -/
def awardAssignmentXpDb (req : AwardXPRequest) (db : SupaDb) : SupaDb :=
  resultDb db (awardAssignmentXp req db)

/-! ## SQLAlchemy roll-dice endpoint (`students.py`, `roll_dice`,
lines 156-258) -/

/-- `success_chance = skill_level * 20` (line 189, "20% per skill level"). -/
def successChance (skill_level : Int) : Int := skill_level * 20

/-- `was_successful = roll_result <= success_chance` (line 194). -/
def wasSuccessful (roll_result success_chance : Int) : Bool :=
  roll_result ≤ success_chance

/-- The data object of the roll response (lines 252-257). -/
structure RollData where
  roll_result : Int
  success_chance : Int
  was_successful : Bool
  moves_remaining : Int
deriving DecidableEq, Repr

/-- `roll_dice` (lines 156-258). Checks, in source order: the player has a
stats row with `gameboard_moves > 0` (400 otherwise, before anything else);
the station exists (404); the skills row exists (400). Then the drawn value
(`random.randint(1, 100)`, injected here as `draw`) is compared against
`skill_level * 20`, the `DiceRoll` row is recorded, one move is consumed,
and only on success are the station's XP/item rewards applied and the
position possibly advanced. -/
def rollDice (uid : String) (station_id : Int) (draw : Int) (db : SqlDb) :
    Except HttpError (SqlDb × RollData) :=
  match lookup uid db.player_stats with
  | none => .error ⟨400, "no_moves"⟩
  | some stats =>
    if stats.gameboard_moves ≤ 0 then .error ⟨400, "no_moves"⟩
    else
      match db.stations.find? (fun s => s.id = station_id) with
      | none => .error ⟨404, "station_not_found"⟩
      | some station =>
        match lookup uid db.player_skills with
        | none => .error ⟨400, "skills_not_found"⟩
        | some skills =>
          let skill_level := skills.get station.required_skill
          let success_chance := successChance skill_level
          let roll_result := draw
          let was := wasSuccessful roll_result success_chance
          let record : DiceRollRec :=
            { user_id := uid, station_id := station_id, skill_level := skill_level,
              success_chance := success_chance, roll_result := roll_result,
              was_successful := was }
          let stats1 := { stats with gameboard_moves := stats.gameboard_moves - 1 }
          if was then
            let stats2 :=
              if 0 < station.completion_reward_xp then
                { stats1 with
                  gameboard_xp := stats1.gameboard_xp + station.completion_reward_xp,
                  total_xp := stats1.total_xp + station.completion_reward_xp,
                  current_xp := stats1.current_xp + station.completion_reward_xp }
              else stats1
            let entries : List XPEntryRec :=
              if 0 < station.completion_reward_xp then
                [{ user_id := uid, amount := station.completion_reward_xp,
                   type := .gameboard, assignment_id := none, unit_id := none }]
              else []
            let inventory' :=
              if station.completion_reward_items ≠ [] then
                match lookup uid db.player_inventory with
                | some inv =>
                  alistInsert uid (applyItems inv station.completion_reward_items)
                    db.player_inventory
                | none => db.player_inventory
              else db.player_inventory
            let stats3 :=
              if stats2.gameboard_position = station_id then
                { stats2 with
                  gameboard_position := min 10 (stats2.gameboard_position + 1) }
              else stats2
            .ok ({ db with
              player_stats := alistInsert uid stats3 db.player_stats,
              player_inventory := inventory',
              xp_entries := db.xp_entries ++ entries,
              dice_rolls := db.dice_rolls ++ [record] },
              { roll_result := roll_result, success_chance := success_chance,
                was_successful := was, moves_remaining := stats3.gameboard_moves })
          else
            .ok ({ db with
              player_stats := alistInsert uid stats1 db.player_stats,
              dice_rolls := db.dice_rolls ++ [record] },
              { roll_result := roll_result, success_chance := success_chance,
                was_successful := was, moves_remaining := stats1.gameboard_moves })

/-- The database after `roll_dice`, unchanged when it raised. -/
def rollDiceDb (uid : String) (station_id : Int) (draw : Int) (db : SqlDb) : SqlDb :=
  resultDb db (rollDice uid station_id draw db)

/-! ## Supabase roll-dice endpoint (`students_supabase.py`, `roll_dice`,
lines 361-492) -/

/-- The request body `dice_data : dict`; every field the handler reads is
optional, fetched with `.get`. -/
structure DicePayload where
  station_id : Option Int
  skill_level : Option Int
  success_chance : Option Int
  roll_result : Option Int
deriving DecidableEq, Repr

/-- The values the handler draws from `random`: `randint(1, 100)` for the
roll (consumed only when the payload lacks `roll_result`), `randint(5, 15)`
and `randint(1, 5)` for the success rewards, `randint(1, 5)` for the
consolation reward on failure. -/
structure RollDraws where
  roll : Int
  xp_bonus : Int
  gold_bonus : Int
  consolation : Int
deriving DecidableEq, Repr

/-- The `randint` bounds of the injected draws. -/
def RollDraws.InRange (d : RollDraws) : Prop :=
  1 ≤ d.roll ∧ d.roll ≤ 100 ∧ 5 ≤ d.xp_bonus ∧ d.xp_bonus ≤ 15 ∧
  1 ≤ d.gold_bonus ∧ d.gold_bonus ≤ 5 ∧ 1 ≤ d.consolation ∧ d.consolation ≤ 5

instance (d : RollDraws) : Decidable d.InRange := by
  unfold RollDraws.InRange
  infer_instance

/-- `dice_data.get('skill_level', 1)` (line 376). -/
def supaSkillLevel (p : DicePayload) : Int := p.skill_level.getD 1

/-- `dice_data.get('success_chance', 50)` (line 377). -/
def supaSuccessChance (p : DicePayload) : Int := p.success_chance.getD 50

/-- `dice_data.get('roll_result', random.randint(1, 100))` (line 380). -/
def supaRollResult (p : DicePayload) (draw : Int) : Int := p.roll_result.getD draw

/-- `was_successful = roll_result <= success_chance` (line 381), computed
from the payload's own values with the defaults above. -/
def supaWasSuccessful (p : DicePayload) (draw : Int) : Bool :=
  supaRollResult p draw ≤ supaSuccessChance p

/-- The Supabase roll response: the no-moves rejection (lines 393-402,
`success: False` with the already-computed `roll_result` echoed back) or
the played-out roll (lines 462-482). -/
inductive SupaRollResp
  | noMoves (roll_result : Int)
  | rolled (roll_result : Int) (was_successful : Bool)
      (success_chance skill_level xp_gained gold_gained moves_remaining : Int)
deriving DecidableEq, Repr

/-- `roll_dice` of `students_supabase.py` (lines 361-492). The roll
parameters, including the outcome, come from the request payload (server
draw and chance 50 only as defaults) — the stored `player_skills` are never
read. The draw is computed before the stats fetch and the moves check. With
no moves the handler returns the rejection without touching the store. With
moves, a successful roll earns `skill_level * 10 + randint(5, 15)` XP and
`randint(1, 5)` gold (both +10/+2 when `skill_level >= 3`); a failed roll
still earns `randint(1, 5)` consolation XP and no gold. One move is
consumed, stats are updated with a recomputed level, and an XP entry is
logged when XP was gained. Board position is never changed. -/
def rollDiceSupabase (uid : String) (p : DicePayload) (draws : RollDraws)
    (db : SupaDb) : Except HttpError (SupaDb × SupaRollResp) :=
  let skill_level := supaSkillLevel p
  let success_chance := supaSuccessChance p
  let roll_result := supaRollResult p draws.roll
  let was := supaWasSuccessful p draws.roll
  match lookup uid db.player_stats with
  | none => .error ⟨404, "stats_not_found"⟩
  | some current_stats =>
    let current_moves := current_stats.gameboard_moves
    if current_moves ≤ 0 then
      .ok (db, .noMoves roll_result)
    else
      let xp_gained :=
        if was then
          skill_level * 10 + draws.xp_bonus + (if 3 ≤ skill_level then 10 else 0)
        else draws.consolation
      let gold_gained :=
        if was then draws.gold_bonus + (if 3 ≤ skill_level then 2 else 0) else 0
      let new_moves := current_moves - 1
      let new_total_xp := current_stats.total_xp + xp_gained
      let new_current_xp := current_stats.current_xp + xp_gained
      let new_level := supaLevel new_total_xp
      let new_gold := current_stats.gold + gold_gained
      let new_gameboard_xp := current_stats.gameboard_xp + xp_gained
      let stats' := { current_stats with
        gameboard_moves := new_moves, total_xp := new_total_xp,
        current_xp := new_current_xp, current_level := new_level,
        gold := new_gold, gameboard_xp := new_gameboard_xp }
      let entries : List SupaXPEntry :=
        if 0 < xp_gained then
          [{ user_id := uid, assignment_id := none, unit_id := none,
             xp_amount := xp_gained }]
        else []
      .ok ({ db with
        player_stats := alistInsert uid stats' db.player_stats,
        xp_entries := db.xp_entries ++ entries },
        .rolled roll_result was success_chance skill_level xp_gained
          gold_gained new_moves)

/-! ## Concurrency model of the unserialized award (`admin_supabase.py`
lines 179 and 201; the SQLAlchemy `award_student` has the same
read-then-write shape at lines 46 and 63-64/136) -/

/-- The progress of one award handler through its two store operations:
the `player_stats` select (which snapshots `total_xp`) and the update
(which writes `snapshot + amount`). No lock or transaction scopes the
pair, so steps of different handlers may interleave. -/
inductive AwardPc
  | ready
  | readDone (snapshot : Int)
  | finished
deriving DecidableEq, Repr

/-- Two award handlers for the same user racing on the shared
`total_xp`. -/
structure TwoAwards where
  total_xp : Int
  amount1 : Int
  pc1 : AwardPc
  amount2 : Int
  pc2 : AwardPc
deriving DecidableEq, Repr

/-- One atomic store operation of one handler: the select snapshots the
current total; the update writes `snapshot + amount`. -/
def stepProc (total amount : Int) : AwardPc → Int × AwardPc
  | .ready => (total, .readDone total)
  | .readDone snapshot => (snapshot + amount, .finished)
  | .finished => (total, .finished)

/-- Run a schedule: `true` steps handler 1, `false` steps handler 2. -/
def runSchedule (s : TwoAwards) : List Bool → TwoAwards
  | [] => s
  | first :: rest =>
    if first then
      let (t, pc) := stepProc s.total_xp s.amount1 s.pc1
      runSchedule { s with total_xp := t, pc1 := pc } rest
    else
      let (t, pc) := stepProc s.total_xp s.amount2 s.pc2
      runSchedule { s with total_xp := t, pc2 := pc } rest

/-! ## Concrete inputs for witnesses and counterexamples -/

/-- An otherwise-empty SQLAlchemy database with one student `"s"`. -/
def db2 : SqlDb :=
  { users := ["s"], assignments := [], stations := [], player_stats := [],
    player_skills := [], player_inventory := [], xp_entries := [],
    dice_rolls := [], admin_activities := 0 }

/-- A 250-XP bonus award to `"s"`. -/
def award2 : AdminAwardRequest := ⟨.bonus_xp, "s", 250, none, none⟩

/-- An assignment with `max_xp = 100`. -/
def a3 : Assignment := ⟨"a1", "u1", 100⟩

/-- `db2` with assignment `a3` on file. -/
def db3 : SqlDb := { db2 with assignments := [a3] }

/-- A 150-XP assignment award against the 100-XP cap of `a3`. -/
def award3 : AdminAwardRequest := ⟨.xp, "s", 150, some "a1", none⟩

/-- The same over-cap award as `award3`, for the Supabase endpoint. -/
def req3 : AwardXPRequest := ⟨"s", "a1", 150⟩

/-- An otherwise-empty Supabase database with student `"s"` and `a3`. -/
def sdb3 : SupaDb :=
  { users := ["s"], assignments := [a3], player_stats := [],
    player_skills := [], xp_entries := [] }

/-- A station requiring strength, worth 25 XP, no items. -/
def station4 : GameboardStation := ⟨7, .strength, 25, []⟩

/-- `"s"` has 2 gameboard moves and default skills; station 7 exists. -/
def db4 : SqlDb :=
  { db2 with
    stations := [station4],
    player_stats := [("s", { defaultStats with gameboard_moves := 2 })],
    player_skills := [("s", defaultSkills)] }

/-- Supabase stats for `"s"` with zero gameboard moves. -/
def sdb4 : SupaDb :=
  { users := ["s"], assignments := [],
    player_stats := [("s", defaultStats)], player_skills := [],
    xp_entries := [] }

/-- A Supabase roll request that supplies only the station id, so the
server draw and the default chance 50 apply. -/
def payload4 : DicePayload := ⟨some 7, none, none, none⟩

/-- Draw records differing only in the server roll (7 versus 13). -/
def draws4a : RollDraws := ⟨7, 5, 1, 1⟩

/-- See `draws4a`. -/
def draws4b : RollDraws := ⟨13, 5, 1, 1⟩

/-- A station requiring speed, worth 50 XP, rewarding one water. -/
def station5 : GameboardStation := ⟨2, .speed, 50, [(Item.water, 1)]⟩

/-- `"s"` has 1 move, default skills, empty inventory; station 2 exists. -/
def db5 : SqlDb :=
  { db2 with
    stations := [station5],
    player_stats := [("s", { defaultStats with gameboard_moves := 1 })],
    player_skills := [("s", defaultSkills)],
    player_inventory := [("s", ⟨0, 0, 0⟩)] }

/-- Supabase stats for `"s"` with exactly 1 gameboard move. -/
def sdb5 : SupaDb :=
  { users := ["s"], assignments := [],
    player_stats := [("s", { defaultStats with gameboard_moves := 1 })],
    player_skills := [], xp_entries := [] }

/-- A Supabase roll request supplying only the station id. -/
def payload5 : DicePayload := ⟨some 3, none, none, none⟩

/-- A failing server draw (80 against chance 50) with consolation 3. -/
def draws5 : RollDraws := ⟨80, 7, 2, 3⟩

/-- A 5-gold award to `"s"`. -/
def award9 : AdminAwardRequest := ⟨.gold, "s", 5, none, none⟩

/-- `db2` with a stats row (default gold 3) for `"s"`. -/
def db9 : SqlDb := { db2 with player_stats := [("s", defaultStats)] }

/-- A 10-XP bonus award to `"s"`. -/
def award9b : AdminAwardRequest := ⟨.bonus_xp, "s", 10, none, none⟩

/-- The database after `award9b`, for the C9 witness. -/
def db9b : SqlDb := resultDb db9 (awardStudent award9b db9)

/-- The events after `award9b`, for the C9 witness. -/
def evs9b : List RtEvent := resultEvents (awardStudent award9b db9)

/-- A Supabase roll request supplying its own roll 55 and chance 60. -/
def payload10 : DicePayload := ⟨some 1, some 2, some 60, some 55⟩

/-- An alternative `player_skills` table, to vary for independence. -/
def sk10 : List (String × PlayerSkills) := [("s", ⟨5, 5, 5, 5, 5⟩)]

/-- The database after the C4 witness roll (draw 90 fails against
chance 20). -/
def db4w : SqlDb := rollDiceDb "s" 7 90 db4

/-- The response of the C4 witness roll. -/
def resp4w : RollData := (resultResp (rollDice "s" 7 90 db4)).getD ⟨0, 0, false, 0⟩

/-- The stats row shared by the C5 concrete runs: one gameboard move. -/
def st5 : PlayerStats := { defaultStats with gameboard_moves := 1 }

/-- The database after the C5 witness roll (draw 90 fails against
chance 20 at station 2). -/
def db5w : SqlDb := rollDiceDb "s" 2 90 db5

/-- The response of the C5 witness roll. -/
def resp5w : RollData := (resultResp (rollDice "s" 2 90 db5)).getD ⟨0, 0, false, 0⟩

/-! ### Association-list lemmas -/

theorem lookup_alistErase {α β : Type} [DecidableEq α] (k w : α) (l : List (α × β)) :
    lookup w (alistErase k l) = if w = k then none else lookup w l := by
  induction l with
  | nil => by_cases hw : w = k <;> simp [alistErase, lookup, hw]
  | cons p t ih =>
    obtain ⟨k', v⟩ := p
    simp only [alistErase]
    by_cases hk : k' = k
    · rw [if_pos hk, ih]
      subst hk
      by_cases hw : w = k'
      · simp [hw]
      · simp [lookup, hw, Ne.symm hw]
    · rw [if_neg hk]
      simp only [lookup]
      by_cases hw : k' = w
      · subst hw
        simp [hk]
      · simp [hw, ih]

theorem lookup_alistInsert {α β : Type} [DecidableEq α] (k w : α) (v : β) (l : List (α × β)) :
    lookup w (alistInsert k v l) = if w = k then some v else lookup w l := by
  induction l with
  | nil =>
    by_cases hw : w = k
    · subst hw
      simp [alistInsert, lookup]
    · simp [alistInsert, lookup, hw, Ne.symm hw]
  | cons p t ih =>
    obtain ⟨k', v'⟩ := p
    simp only [alistInsert]
    by_cases hk : k' = k
    · rw [if_pos hk]
      subst hk
      by_cases hw : w = k'
      · simp [lookup, hw]
      · simp [lookup, hw, Ne.symm hw]
    · rw [if_neg hk]
      simp only [lookup]
      by_cases hw : k' = w
      · subst hw
        simp [hk]
      · simp [hw, ih]

/-- `disconnect` deletes exactly the metadata entry of the disconnected
socket. -/
theorem disconnect_lookup_data (m : Manager) (g w : Nat) :
    lookup w (m.disconnect g).connection_data =
      if w = g then none else lookup w m.connection_data := by
  unfold Manager.disconnect
  cases hg : lookup g m.connection_data with
  | none =>
    by_cases hw : w = g
    · subst hw; simp [hg]
    · simp [hw]
  | some data =>
    simp only
    rw [lookup_alistErase]

/-- Folding `disconnect` over a list of sockets deletes exactly those
sockets' metadata entries. -/
theorem foldl_disconnect_lookup_data (l : List Nat) (m : Manager) (w : Nat) :
    lookup w (l.foldl Manager.disconnect m).connection_data =
      if w ∈ l then none else lookup w m.connection_data := by
  induction l generalizing m with
  | nil => simp
  | cons g t ih =>
    simp only [List.foldl_cons, ih, disconnect_lookup_data, List.mem_cons]
    by_cases hw : w = g
    · simp [hw]
    · simp [hw]

/-- One send attempt happens per target: a target whose send succeeds is
delivered to and keeps its registry entry; a target whose send fails is
deregistered after the loop. -/
theorem dispatchAll_spec (m : Manager) (targets : List Nat) (sendOk : Nat → Bool)
    (w : Nat) (hmem : w ∈ targets) :
    (sendOk w = true → w ∈ (dispatchAll m targets sendOk).2 ∧
      lookup w (dispatchAll m targets sendOk).1.connection_data =
        lookup w m.connection_data) ∧
    (sendOk w = false →
      lookup w (dispatchAll m targets sendOk).1.connection_data = none) := by
  constructor
  · intro hok
    constructor
    · simp [dispatchAll, List.mem_filter, hmem, hok]
    · simp only [dispatchAll]
      rw [foldl_disconnect_lookup_data]
      have hnf : w ∉ targets.filter (fun x => ¬ sendOk x) := by
        simp [List.mem_filter, hok]
      rw [if_neg hnf]
  · intro hfail
    simp only [dispatchAll]
    rw [foldl_disconnect_lookup_data]
    have hf : w ∈ targets.filter (fun x => ¬ sendOk x) := by
      simp [List.mem_filter, hmem, hfail]
    rw [if_pos hf]

/-- Claim C7: for every room broadcast and every multi-device user send, a
delivery failure on one socket disconnects and deregisters only that
connection: every connection whose own send succeeds still receives the
event and keeps its registry entry unchanged, every connection whose send
fails is deregistered, and no failure is raised to the caller (both
operations are total functions). -/
theorem C7_broadcast_failure_isolation (m : Manager) (room uid : String)
    (sendOk : Nat → Bool) (w : Nat) :
    (w ∈ m.roomMembers room → sendOk w = true →
      w ∈ (m.broadcast_to_room room sendOk).2 ∧
      lookup w (m.broadcast_to_room room sendOk).1.connection_data =
        lookup w m.connection_data) ∧
    (w ∈ m.roomMembers room → sendOk w = false →
      lookup w (m.broadcast_to_room room sendOk).1.connection_data = none) ∧
    (w ∈ m.userConns uid → sendOk w = true →
      w ∈ (m.send_to_user uid sendOk).2 ∧
      lookup w (m.send_to_user uid sendOk).1.connection_data =
        lookup w m.connection_data) ∧
    (w ∈ m.userConns uid → sendOk w = false →
      lookup w (m.send_to_user uid sendOk).1.connection_data = none) := by
  refine ⟨?_, ?_, ?_, ?_⟩
  · intro hmem hok
    unfold Manager.roomMembers at hmem
    unfold Manager.broadcast_to_room
    cases hroom : lookup room m.rooms with
    | none => rw [hroom] at hmem; simp at hmem
    | some members =>
      rw [hroom] at hmem
      simp only [Option.getD_some] at hmem
      exact (dispatchAll_spec m members sendOk w hmem).1 hok
  · intro hmem hfail
    unfold Manager.roomMembers at hmem
    unfold Manager.broadcast_to_room
    cases hroom : lookup room m.rooms with
    | none => rw [hroom] at hmem; simp at hmem
    | some members =>
      rw [hroom] at hmem
      simp only [Option.getD_some] at hmem
      exact (dispatchAll_spec m members sendOk w hmem).2 hfail
  · intro hmem hok
    unfold Manager.userConns at hmem
    unfold Manager.send_to_user
    cases hconn : lookup uid m.connections with
    | none => rw [hconn] at hmem; simp at hmem
    | some conns =>
      rw [hconn] at hmem
      simp only [Option.getD_some] at hmem
      exact (dispatchAll_spec m conns sendOk w hmem).1 hok
  · intro hmem hfail
    unfold Manager.userConns at hmem
    unfold Manager.send_to_user
    cases hconn : lookup uid m.connections with
    | none => rw [hconn] at hmem; simp at hmem
    | some conns =>
      rw [hconn] at hmem
      simp only [Option.getD_some] at hmem
      exact (dispatchAll_spec m conns sendOk w hmem).2 hfail

/-- Witness for C7 at a concrete registry: in a broadcast to `all_users`
where socket 2's send fails, socket 1 still receives and stays registered
while socket 2 is deregistered; in a send to user `alice`, socket 3 still
receives. -/
theorem C7_witness :
    (1 ∈ (m70.broadcast_to_room "all_users" f70).2 ∧
      lookup 1 (m70.broadcast_to_room "all_users" f70).1.connection_data =
        lookup 1 m70.connection_data) ∧
    lookup 2 (m70.broadcast_to_room "all_users" f70).1.connection_data = none ∧
    3 ∈ (m70.send_to_user "alice" f70).2 := by
  refine ⟨?_, ?_, ?_⟩
  · exact (C7_broadcast_failure_isolation m70 "all_users" "alice" f70 1).1
      (by decide) (by decide)
  · exact (C7_broadcast_failure_isolation m70 "all_users" "alice" f70 2).2.1
      (by decide) (by decide)
  · exact ((C7_broadcast_failure_isolation m70 "all_users" "alice" f70 3).2.2.1
      (by decide) (by decide)).1

/-- Claim C8: `disconnect` is idempotent on every registry state: a second
`disconnect` of the same socket leaves the state (user index, metadata,
rooms, counters) exactly as after the first; and, on any well-formed
registry, the disconnected socket belongs to zero rooms afterwards. -/
theorem C8_disconnect_idempotent (m : Manager) (w : Nat) :
    (m.disconnect w).disconnect w = m.disconnect w ∧
    (m.WF → ∀ p ∈ (m.disconnect w).rooms, w ∉ p.2) := by
  constructor
  · have h := disconnect_lookup_data m w w
    rw [if_pos rfl] at h
    generalize m.disconnect w = d at h ⊢
    unfold Manager.disconnect
    rw [h]
  · intro hwf p hp hw
    unfold Manager.disconnect at hp
    cases hdata : lookup w m.connection_data with
    | none =>
      rw [hdata] at hp
      have := hwf p hp w hw
      rw [hdata] at this
      simp at this
    | some data =>
      rw [hdata] at hp
      simp only [List.mem_map] at hp
      obtain ⟨q, _, hq⟩ := hp
      rw [← hq] at hw
      simp [setDiscard, List.mem_filter] at hw

/-- Witness for C8 at a concrete well-formed registry with two sockets and
two rooms: after disconnecting socket 1 it is gone from the `all_users`
membership, which is now `[2]`. -/
theorem C8_witness :
    (m80.disconnect 1).disconnect 1 = m80.disconnect 1 ∧ (1 : Nat) ∉ [2] :=
  ⟨(C8_disconnect_idempotent m80 1).1,
   (C8_disconnect_idempotent m80 1).2 (by decide) ("all_users", [2]) (by decide)⟩

/-! ## Claim theorems -/

/-- Claim C1 (lost update): the award handlers read `player_stats` and then
write back `snapshot + amount` with no per-user lock or transaction
(`admin_supabase.py` lines 179/201). In the interleaving where both
handlers read before either writes, the first award of 10 is lost: the
final total is 120, not the 130 the claim requires, while the serialized
schedule does give 130. -/
theorem C1_concurrent_awards_lose_update :
    (runSchedule ⟨100, 10, .ready, 20, .ready⟩ [true, false, true, false]).total_xp = 120 ∧
    (runSchedule ⟨100, 10, .ready, 20, .ready⟩ [true, true, false, false]).total_xp = 130 ∧
    (120 : Int) ≠ 100 + (10 + 20) := by
  decide

/-- Claim C2 (stale level): `award_student` in `admin.py` adds the award
amount to `current_xp`/`total_xp` but never recomputes `current_level`.
After a 250-XP bonus award to a fresh player the stored level is still 1,
while `floor(250 / 200) + 1 = 2`. -/
theorem C2_award_student_stale_level :
    lookup "s" (resultDb db2 (awardStudent award2 db2)).player_stats =
      some { defaultStats with current_xp := 250, total_xp := 250 } ∧
    ({ defaultStats with current_xp := 250, total_xp := 250 } : PlayerStats).current_level = 1 ∧
    Int.fdiv 250 200 + 1 = 2 := by
  decide

/-- Counterexample to claim C3 as stated: `award_student` in `admin.py`
performs no cap validation. The 150-XP award `award3` against the 100-XP
cap of assignment `a3` is accepted, the player's `totalXP` becomes 150, an
XP entry is logged and events are emitted. -/
theorem C3_counterexample_no_cap_in_award_student :
    a3.max_xp = 100 ∧ award3.amount = 150 ∧
    (lookup "s" (resultDb db3 (awardStudent award3 db3)).player_stats).map
      (fun st => st.total_xp) = some 150 ∧
    (resultDb db3 (awardStudent award3 db3)).xp_entries.length = 1 ∧
    RtEvent.leaderboard_update ∈ resultEvents (awardStudent award3 db3) := by
  decide

/-- Claim C3 (amended): the Supabase award endpoint `award_assignment_xp`
rejects an award exceeding `assignment.max_xp` with a 400 before any state
change; the legacy `award_student` endpoint performs no such check (see the
counterexample). -/
theorem C3_supabase_cap_rejected (req : AwardXPRequest) (db : SupaDb) (a : Assignment)
    (hu : req.target_user_id ∈ db.users)
    (ha : db.assignments.find? (fun x => x.id = req.assignment_id) = some a)
    (hcap : a.max_xp < req.xp_awarded) :
    awardAssignmentXp req db = .error ⟨400, "xp_cap_exceeded"⟩ ∧
    awardAssignmentXpDb req db = db := by
  have h : awardAssignmentXp req db = .error ⟨400, "xp_cap_exceeded"⟩ := by
    unfold awardAssignmentXp
    rw [if_pos hu, ha]
    dsimp only
    rw [if_pos hcap]
  refine ⟨h, ?_⟩
  unfold awardAssignmentXpDb
  rw [h]
  rfl

/-- Witness for C3 at the concrete over-cap request `req3` against `a3`. -/
theorem C3_witness :
    awardAssignmentXp req3 sdb3 = .error ⟨400, "xp_cap_exceeded"⟩ ∧
    awardAssignmentXpDb req3 sdb3 = sdb3 :=
  C3_supabase_cap_rejected req3 sdb3 a3 (by decide) (by decide) (by decide)

/-- Claim C6: for a skill level `L ≥ 1` and a drawn value in `[1, 100]`,
the roll in `students.py` succeeds exactly when the draw is at most
`min(100, L * 20)` — the code compares against `L * 20`, and the draw never
exceeds 100, so the two bounds agree. -/
theorem C6_dice_outcome_pure (L r : Int) (hL : 1 ≤ L) (h1 : 1 ≤ r) (h100 : r ≤ 100) :
    (wasSuccessful r (successChance L) = true) ↔ r ≤ min 100 (L * 20) := by
  unfold wasSuccessful successChance
  simp only [decide_eq_true_eq, le_min_iff]
  constructor
  · intro h
    exact ⟨h100, h⟩
  · intro h
    exact h.2

/-- Witness for C6 at skill level 3 and draw 55 (the spec's own example:
chance 60, draw 55 succeeds). -/
theorem C6_witness :
    (1 : Int) ≤ 3 ∧ (1 : Int) ≤ 55 ∧ (55 : Int) ≤ 100 ∧
    ((wasSuccessful 55 (successChance 3) = true) ↔ (55 : Int) ≤ min 100 (3 * 20)) :=
  ⟨by decide, by decide, by decide,
   C6_dice_outcome_pure 3 55 (by decide) (by decide) (by decide)⟩

/-- Claim C10: in the Supabase `roll_dice`, the outcome is computed from
the client-supplied `roll_result` and `success_chance` when present
(success iff `roll_result ≤ success_chance`), the server draw and chance 50
apply only when the fields are absent, and the whole endpoint is
independent of the stored `player_skills` table (it never reads it: the
result is unchanged, up to carrying the substituted table through, for any
skills table). -/
theorem C10_client_supplied_outcome (p : DicePayload) (draw r c : Int) (uid : String)
    (draws : RollDraws) (db : SupaDb) (skills : List (String × PlayerSkills)) :
    (p.roll_result = some r → p.success_chance = some c →
      supaWasSuccessful p draw = decide (r ≤ c)) ∧
    (p.roll_result = none → supaRollResult p draw = draw) ∧
    (p.success_chance = none → supaSuccessChance p = 50) ∧
    rollDiceSupabase uid p draws { db with player_skills := skills } =
      (rollDiceSupabase uid p draws db).map
        (fun x => ({ x.1 with player_skills := skills }, x.2)) := by
  refine ⟨?_, ?_, ?_, ?_⟩
  · intro hr hc
    unfold supaWasSuccessful supaRollResult supaSuccessChance
    rw [hr, hc]
    rfl
  · intro hr
    unfold supaRollResult
    rw [hr]
    rfl
  · intro hc
    unfold supaSuccessChance
    rw [hc]
    rfl
  · unfold rollDiceSupabase
    dsimp only
    cases hlk : lookup uid db.player_stats with
    | none => rfl
    | some current_stats =>
      dsimp only
      by_cases hm : current_stats.gameboard_moves ≤ 0
      · rw [if_pos hm, if_pos hm]
        rfl
      · rw [if_neg hm, if_neg hm]
        rfl

/-- Witness for C10: the client-supplied roll 55 against chance 60 decides
the outcome, and substituting a different skills table leaves the endpoint
result unchanged. -/
theorem C10_witness :
    supaWasSuccessful payload10 80 = decide ((55 : Int) ≤ 60) ∧
    rollDiceSupabase "s" payload10 draws5 { sdb5 with player_skills := sk10 } =
      (rollDiceSupabase "s" payload10 draws5 sdb5).map
        (fun x => ({ x.1 with player_skills := sk10 }, x.2)) :=
  ⟨(C10_client_supplied_outcome payload10 80 55 60 "s" draws5 sdb5 sk10).1 rfl rfl,
   (C10_client_supplied_outcome payload10 80 55 60 "s" draws5 sdb5 sk10).2.2.2⟩

/-- The award types `award_student` treats as ranking-relevant (line 152)
are exactly `xp` and `bonus_xp`. -/
theorem awardAffectsXp_eq_true_iff (t : AwardType) :
    awardAffectsXp t = true ↔ (t = .xp ∨ t = .bonus_xp) := by
  cases t <;> simp [awardAffectsXp]

/-- Claim C9 (amended): after a successful `award_student` call, a
`leaderboard_update` is broadcast exactly when the award type is `xp` or
`bonus_xp`; a `bonus_xp` award of amount `a` does change `totalXP` by `a`,
but a gold award changes gold with no broadcast (see the counterexample),
so broadcasting does not coincide with "a ranked value changed". -/
theorem C9_leaderboard_broadcast_iff_xp_type (award : AdminAwardRequest) (db db' : SqlDb)
    (evs : List RtEvent) (hok : awardStudent award db = .ok (db', evs)) :
    (RtEvent.leaderboard_update ∈ evs ↔ (award.type = .xp ∨ award.type = .bonus_xp)) ∧
    (award.type = .bonus_xp →
      lookup award.target_user_id db'.player_stats =
        some { ((lookup award.target_user_id db.player_stats).getD defaultStats) with
               current_xp :=
                 ((lookup award.target_user_id db.player_stats).getD defaultStats).current_xp
                   + award.amount,
               total_xp :=
                 ((lookup award.target_user_id db.player_stats).getD defaultStats).total_xp
                   + award.amount }) := by
  unfold awardStudent at hok
  by_cases hu : award.target_user_id ∈ db.users
  · rw [if_pos hu] at hok
    cases happ : awardApply award db with
    | error e =>
      rw [happ] at hok
      simp at hok
    | ok dbo =>
      rw [happ] at hok
      simp only [Except.ok.injEq, Prod.mk.injEq] at hok
      obtain ⟨hdb, hevs⟩ := hok
      subst hdb
      subst hevs
      constructor
      · constructor
        · intro hmem
          simp only [List.mem_cons] at hmem
          rcases hmem with h | h
          · exact RtEvent.noConfusion h
          · by_cases ht : awardAffectsXp award.type = true
            · exact (awardAffectsXp_eq_true_iff award.type).mp ht
            · rw [if_neg ht] at h
              simp at h
        · intro ht
          rw [if_pos ((awardAffectsXp_eq_true_iff award.type).mpr ht)]
          simp
      · intro hb
        unfold awardApply at happ
        rw [hb] at happ
        dsimp only at happ
        simp only [Except.ok.injEq] at happ
        subst happ
        dsimp only
        rw [lookup_alistInsert, if_pos rfl]
  · rw [if_neg hu] at hok
    simp at hok

/-- Counterexample to claim C9 as stated: a 5-gold award changes gold (a
value the leaderboard displays and the claim lists as ranked) from 3 to 8,
yet no `leaderboard_update` is broadcast. -/
theorem C9_counterexample_gold_award_no_broadcast :
    (lookup "s" (resultDb db9 (awardStudent award9 db9)).player_stats).map
      (fun st => st.gold) = some 8 ∧
    (lookup "s" db9.player_stats).map (fun st => st.gold) = some 3 ∧
    RtEvent.leaderboard_update ∉ resultEvents (awardStudent award9 db9) := by
  decide

/-- Witness for C9 at the concrete bonus award `award9b`. -/
theorem C9_witness :
    RtEvent.leaderboard_update ∈ evs9b ↔
      (award9b.type = .xp ∨ award9b.type = .bonus_xp) :=
  (C9_leaderboard_broadcast_iff_xp_type award9b db9 db9b evs9b (by rfl)).1

/-- Counterexample to the "no draw on rejection" part of claim C4: the
Supabase `roll_dice` computes its draw (line 380) before fetching stats and
checking moves (line 393), and echoes it in the rejection — at zero moves,
two different server draws produce two different rejection responses, so a
draw does happen. (No move is consumed and the store is untouched.) -/
theorem C4_counterexample_supabase_draws_before_check :
    rollDiceSupabase "s" payload4 draws4a sdb4 = .ok (sdb4, .noMoves 7) ∧
    rollDiceSupabase "s" payload4 draws4b sdb4 = .ok (sdb4, .noMoves 13) ∧
    draws4a.roll ≠ draws4b.roll ∧
    SupaRollResp.noMoves 7 ≠ SupaRollResp.noMoves 13 :=
  ⟨rfl, rfl, by decide, by decide⟩

/-- Claim C4 (amended): in both roll endpoints every played-out attempt
consumes exactly one gameboard move, and a roll at zero moves is rejected
with no move consumed and no state change — so `gameboardMoves ≥ 0` is
preserved. The SQLAlchemy endpoint rejects before any draw; the Supabase
endpoint performs its draw first and echoes it in the rejection (see the
counterexample). -/
theorem C4_moves_accounting (uid : String) (station_id draw : Int) (db : SqlDb)
    (st : PlayerStats) (p : DicePayload) (draws : RollDraws) (sdb : SupaDb)
    (sst : PlayerStats)
    (hst : lookup uid db.player_stats = some st)
    (hsst : lookup uid sdb.player_stats = some sst) :
    (st.gameboard_moves ≤ 0 →
      rollDice uid station_id draw db = .error ⟨400, "no_moves"⟩ ∧
      rollDiceDb uid station_id draw db = db) ∧
    (∀ db' resp, rollDice uid station_id draw db = .ok (db', resp) →
      0 < st.gameboard_moves ∧
      resp.moves_remaining = st.gameboard_moves - 1 ∧
      (lookup uid db'.player_stats).map (fun s => s.gameboard_moves) =
        some (st.gameboard_moves - 1) ∧
      ((∀ v stv, lookup v db.player_stats = some stv → 0 ≤ stv.gameboard_moves) →
        ∀ v stv, lookup v db'.player_stats = some stv → 0 ≤ stv.gameboard_moves)) ∧
    (sst.gameboard_moves ≤ 0 →
      rollDiceSupabase uid p draws sdb =
        .ok (sdb, .noMoves (supaRollResult p draws.roll))) ∧
    (∀ sdb' r w sc sl xp g mv,
      rollDiceSupabase uid p draws sdb = .ok (sdb', .rolled r w sc sl xp g mv) →
      0 < sst.gameboard_moves ∧ mv = sst.gameboard_moves - 1 ∧
      (lookup uid sdb'.player_stats).map (fun s => s.gameboard_moves) =
        some (sst.gameboard_moves - 1)) := by
  refine ⟨?_, ?_, ?_, ?_⟩
  · intro hm
    have he : rollDice uid station_id draw db = .error ⟨400, "no_moves"⟩ := by
      unfold rollDice
      rw [hst]
      dsimp only
      rw [if_pos hm]
    refine ⟨he, ?_⟩
    unfold rollDiceDb
    rw [he]
    rfl
  · intro db' resp hok
    unfold rollDice at hok
    rw [hst] at hok
    dsimp only at hok
    by_cases hm : st.gameboard_moves ≤ 0
    · rw [if_pos hm] at hok
      exact Except.noConfusion hok
    · rw [if_neg hm] at hok
      cases hstat : db.stations.find? (fun s => s.id = station_id) with
      | none =>
        rw [hstat] at hok
        exact Except.noConfusion hok
      | some station =>
        rw [hstat] at hok
        dsimp only at hok
        cases hsk : lookup uid db.player_skills with
        | none =>
          rw [hsk] at hok
          exact Except.noConfusion hok
        | some skills =>
          rw [hsk] at hok
          dsimp only at hok
          refine ⟨by omega, ?_⟩
          by_cases hwas :
              wasSuccessful draw (successChance (skills.get station.required_skill)) = true
          · rw [if_pos hwas] at hok
            simp only [Except.ok.injEq, Prod.mk.injEq] at hok
            obtain ⟨hdb, hresp⟩ := hok
            subst hdb
            subst hresp
            refine ⟨?_, ?_, ?_⟩
            · dsimp only
              split <;> split <;> rfl
            · dsimp only
              rw [lookup_alistInsert, if_pos rfl]
              dsimp only [Option.map]
              split <;> split <;> rfl
            · intro h0 v stv hlv
              dsimp only at hlv
              rw [lookup_alistInsert] at hlv
              by_cases hv : v = uid
              · rw [if_pos hv] at hlv
                injection hlv with hlv
                subst hlv
                split <;> split <;> (dsimp only; omega)
              · rw [if_neg hv] at hlv
                exact h0 v stv hlv
          · rw [if_neg hwas] at hok
            simp only [Except.ok.injEq, Prod.mk.injEq] at hok
            obtain ⟨hdb, hresp⟩ := hok
            subst hdb
            subst hresp
            refine ⟨rfl, ?_, ?_⟩
            · dsimp only
              rw [lookup_alistInsert, if_pos rfl]
              rfl
            · intro h0 v stv hlv
              dsimp only at hlv
              rw [lookup_alistInsert] at hlv
              by_cases hv : v = uid
              · rw [if_pos hv] at hlv
                injection hlv with hlv
                subst hlv
                dsimp only
                omega
              · rw [if_neg hv] at hlv
                exact h0 v stv hlv
  · intro hm
    unfold rollDiceSupabase
    rw [hsst]
    dsimp only
    rw [if_pos hm]
  · intro sdb' r w sc sl xp g mv hok
    unfold rollDiceSupabase at hok
    rw [hsst] at hok
    dsimp only at hok
    by_cases hm : sst.gameboard_moves ≤ 0
    · rw [if_pos hm] at hok
      simp at hok
    · rw [if_neg hm] at hok
      simp only [Except.ok.injEq, Prod.mk.injEq, SupaRollResp.rolled.injEq] at hok
      obtain ⟨hdb, _, _, _, _, _, _, hmv⟩ := hok
      refine ⟨by omega, hmv.symm, ?_⟩
      rw [← hdb]
      dsimp only
      rw [lookup_alistInsert, if_pos rfl]
      rfl

/-- Witness for C4: a played-out SQLAlchemy roll (2 moves, failing draw 90)
consumes exactly one move, and the Supabase endpoint at zero moves returns
the untouched database with the echoed draw. -/
theorem C4_witness :
    (0 < ({ defaultStats with gameboard_moves := 2 } : PlayerStats).gameboard_moves ∧
      resp4w.moves_remaining =
        ({ defaultStats with gameboard_moves := 2 } : PlayerStats).gameboard_moves - 1 ∧
      (lookup "s" db4w.player_stats).map (fun s => s.gameboard_moves) =
        some (({ defaultStats with gameboard_moves := 2 } : PlayerStats).gameboard_moves - 1)) ∧
    rollDiceSupabase "s" payload4 draws4a sdb4 =
      .ok (sdb4, .noMoves (supaRollResult payload4 draws4a.roll)) :=
  ⟨⟨((C4_moves_accounting "s" 7 90 db4 { defaultStats with gameboard_moves := 2 }
        payload4 draws4a sdb4 defaultStats rfl rfl).2.1 db4w resp4w rfl).1,
    ((C4_moves_accounting "s" 7 90 db4 { defaultStats with gameboard_moves := 2 }
        payload4 draws4a sdb4 defaultStats rfl rfl).2.1 db4w resp4w rfl).2.1,
    ((C4_moves_accounting "s" 7 90 db4 { defaultStats with gameboard_moves := 2 }
        payload4 draws4a sdb4 defaultStats rfl rfl).2.1 db4w resp4w rfl).2.2.1⟩,
   (C4_moves_accounting "s" 7 90 db4 { defaultStats with gameboard_moves := 2 }
        payload4 draws4a sdb4 defaultStats rfl rfl).2.2.1 (by decide)⟩

/-- Counterexample to claim C5 as stated: in the Supabase `roll_dice`, a
failed draw (80 against the default chance 50) still grants a consolation
XP reward (`random.randint(1, 5)`, here 3): `totalXP`, `currentXP` and the
gameboard XP all grow by 3 even though the attempt failed. -/
theorem C5_counterexample_supabase_consolation_xp :
    resultResp (rollDiceSupabase "s" payload5 draws5 sdb5) =
      some (.rolled 80 false 50 1 3 0 0) ∧
    (lookup "s" (resultDb sdb5 (rollDiceSupabase "s" payload5 draws5 sdb5)).player_stats).map
      (fun s => (s.total_xp, s.current_xp, s.gameboard_xp, s.gold)) =
      some (3, 3, 3, 3) ∧
    (lookup "s" sdb5.player_stats).map (fun s => s.total_xp) = some 0 := by
  decide

/-- Claim C5 (amended): on a failed draw the SQLAlchemy `roll_dice` applies
no reward — the player's stats row changes only by the consumed move, and
the XP log and inventory are untouched; the Supabase `roll_dice`, however,
still applies a consolation XP reward of `randint(1, 5)` on failure (gold
and board position unchanged). -/
theorem C5_failed_roll_rewards (uid : String) (station_id draw : Int) (db : SqlDb)
    (st : PlayerStats) (p : DicePayload) (draws : RollDraws) (sdb : SupaDb)
    (sst : PlayerStats)
    (hst : lookup uid db.player_stats = some st)
    (hsst : lookup uid sdb.player_stats = some sst) :
    (∀ db' resp, rollDice uid station_id draw db = .ok (db', resp) →
      resp.was_successful = false →
      lookup uid db'.player_stats =
        some { st with gameboard_moves := st.gameboard_moves - 1 } ∧
      db'.xp_entries = db.xp_entries ∧
      db'.player_inventory = db.player_inventory) ∧
    (∀ sdb' r w sc sl xp g mv,
      rollDiceSupabase uid p draws sdb = .ok (sdb', .rolled r w sc sl xp g mv) →
      w = false →
      xp = draws.consolation ∧ g = 0 ∧
      (lookup uid sdb'.player_stats).map
        (fun s => (s.total_xp, s.gold, s.gameboard_position)) =
        some (sst.total_xp + draws.consolation, sst.gold, sst.gameboard_position) ∧
      (draws.InRange → 1 ≤ xp ∧ xp ≤ 5)) := by
  constructor
  · intro db' resp hok hfail
    unfold rollDice at hok
    rw [hst] at hok
    dsimp only at hok
    by_cases hm : st.gameboard_moves ≤ 0
    · rw [if_pos hm] at hok
      exact Except.noConfusion hok
    · rw [if_neg hm] at hok
      cases hstat : db.stations.find? (fun s => s.id = station_id) with
      | none =>
        rw [hstat] at hok
        exact Except.noConfusion hok
      | some station =>
        rw [hstat] at hok
        dsimp only at hok
        cases hsk : lookup uid db.player_skills with
        | none =>
          rw [hsk] at hok
          exact Except.noConfusion hok
        | some skills =>
          rw [hsk] at hok
          dsimp only at hok
          by_cases hwas :
              wasSuccessful draw (successChance (skills.get station.required_skill)) = true
          · rw [if_pos hwas] at hok
            simp only [Except.ok.injEq, Prod.mk.injEq] at hok
            obtain ⟨hdb, hresp⟩ := hok
            subst hresp
            dsimp only at hfail
            rw [hwas] at hfail
            exact Bool.noConfusion hfail
          · rw [if_neg hwas] at hok
            simp only [Except.ok.injEq, Prod.mk.injEq] at hok
            obtain ⟨hdb, hresp⟩ := hok
            subst hdb
            refine ⟨?_, rfl, rfl⟩
            dsimp only
            rw [lookup_alistInsert, if_pos rfl]
  · intro sdb' r w sc sl xp g mv hok hfail
    unfold rollDiceSupabase at hok
    rw [hsst] at hok
    dsimp only at hok
    by_cases hm : sst.gameboard_moves ≤ 0
    · rw [if_pos hm] at hok
      simp at hok
    · rw [if_neg hm] at hok
      simp only [Except.ok.injEq, Prod.mk.injEq, SupaRollResp.rolled.injEq] at hok
      obtain ⟨hdb, hr, hw, hsc, hsl, hxp, hg, hmv⟩ := hok
      have hcond : supaWasSuccessful p draws.roll = false := hw.trans hfail
      rw [hcond] at hxp hg
      rw [if_neg (by decide)] at hxp
      rw [if_neg (by decide)] at hg
      refine ⟨hxp.symm, hg.symm, ?_, ?_⟩
      · rw [← hdb]
        dsimp only
        rw [lookup_alistInsert, if_pos rfl]
        dsimp only [Option.map]
        rw [hcond]
        rw [if_neg (by decide), if_neg (by decide), add_zero]
      · intro hrange
        rw [← hxp]
        unfold RollDraws.InRange at hrange
        omega

/-- Witness for C5: the failed SQLAlchemy roll at station 2 (draw 90,
chance 20) leaves the stats row changed only in the consumed move and the
XP log and inventory untouched; the Supabase counterexample run's
consolation reward is 3, within the `randint(1, 5)` bounds. -/
theorem C5_witness :
    (lookup "s" db5w.player_stats =
      some { st5 with gameboard_moves := st5.gameboard_moves - 1 } ∧
     db5w.xp_entries = db5.xp_entries ∧
     db5w.player_inventory = db5.player_inventory) ∧
    (3 : Int) = draws5.consolation ∧
    (1 ≤ (3 : Int) ∧ (3 : Int) ≤ 5) :=
  ⟨(C5_failed_roll_rewards "s" 2 90 db5 st5 payload5 draws5 sdb5 st5
      rfl rfl).1 db5w resp5w rfl rfl,
   ((C5_failed_roll_rewards "s" 2 90 db5 st5 payload5 draws5 sdb5 st5
      rfl rfl).2 (resultDb sdb5 (rollDiceSupabase "s" payload5 draws5 sdb5))
      80 false 50 1 3 0 0 rfl rfl).1,
   ((C5_failed_roll_rewards "s" 2 90 db5 st5 payload5 draws5 sdb5 st5
      rfl rfl).2 (resultDb sdb5 (rollDiceSupabase "s" payload5 draws5 sdb5))
      80 false 50 1 3 0 0 rfl rfl).2.2.2 (by decide)⟩
